import Mathlib


/-!
A shallow embedding of the trade-event relay of the trade-tracker backend:
the generic retry combinator (async-retry), the Kafka producer and consumer
configuration and control flow, the Prisma-backed trade store operations,
the JSON transport codec, and the create-trade HTTP handler.  Theorems below
settle the specified properties of these components.
-/

namespace TradeTracker


/-- Whether an Except value is a success. -/
def succeeded {ε α : Type} : Except ε α → Bool
  | .ok _ => true
  | .error _ => false


/-!
Retry model.  The backend uses the async-retry npm package everywhere with an
options object of the shape { retries, minTimeout, factor }; maxTimeout is
left at its infinite default and randomize is never set, so it keeps the
async-retry default of true.  The library makes one initial attempt plus up
to retries further attempts; before the k-th retry (k counted from 0) it
sleeps a randomized backoff of r * minTimeout * factor ^ k milliseconds for a
fresh random r drawn from the interval from 1 inclusive to 2 exclusive.  The
model threads those per-retry random factors as an explicit jitter oracle;
wait-time theorems assume only 1 <= jitter k, which the library guarantees,
and therefore state lower bounds rather than exact sleep totals.
-/

/-- Retry options passed to async-retry: number of retries beyond the first
attempt, nominal base sleep in milliseconds, and exponential factor. -/
structure RetryPolicy where
  retries : Nat
  minTimeout : Nat
  factor : Nat
deriving DecidableEq, Repr


/-- Result of running an operation under a retry policy: the final outcome,
how many attempts were made, and the cumulative milliseconds slept between
attempts. -/
structure RetryOutcome (ε α : Type) where
  result : Except ε α
  attempts : Nat
  totalWait : ℚ


/-- The nominal (jitter-free) sleep before the k-th retry:
minTimeout * factor ^ k. -/
def nominalSleep (p : RetryPolicy) (k : Nat) : ℚ :=
  ((p.minTimeout * p.factor ^ k : Nat) : ℚ)

/-- Total sleep accumulated by fuel consecutive failed attempts starting at
attempt index attempt, each scaled by that retry's random factor. -/
def backoffSum (p : RetryPolicy) (jitter : Nat → ℚ) (attempt fuel : Nat) : ℚ :=
  match fuel with
  | 0 => 0
  | fuel' + 1 => jitter attempt * nominalSleep p attempt + backoffSum p jitter (attempt + 1) fuel'


/-- Core loop of async-retry: run the operation (indexed by attempt number);
stop on success or when the retry budget (fuel) is exhausted, otherwise sleep
the jittered exponential backoff and try again. -/
def retryAux {ε α : Type} (op : Nat → Except ε α) (p : RetryPolicy) (jitter : Nat → ℚ)
    (attempt fuel : Nat) (waited : ℚ) : RetryOutcome ε α :=
  match op attempt with
  | .ok a => ⟨.ok a, attempt + 1, waited⟩
  | .error e =>
    match fuel with
    | 0 => ⟨.error e, attempt + 1, waited⟩
    | fuel' + 1 =>
      retryAux op p jitter (attempt + 1) fuel' (waited + jitter attempt * nominalSleep p attempt)


/-- Run an operation under a retry policy with the given per-retry random
factors, as retry(op, p) does. -/
def retryCall {ε α : Type} (op : Nat → Except ε α) (p : RetryPolicy)
    (jitter : Nat → ℚ) : RetryOutcome ε α :=
  retryAux op p jitter 0 p.retries 0

/-- The lower edge of the admissible random factors (Math.random() can return
0, making the drawn factor exactly 1). -/
def unitJitter : Nat → ℚ := fun _ => 1


/-- Count of attempt indices below n at which the operation succeeds. -/
def okCount {ε α : Type} (op : Nat → Except ε α) (n : Nat) : Nat :=
  (List.range n).countP (fun i => succeeded (op i))


/-!
Relay Producer (kafka.producer.ts).  The connection and the send path are
each a retry-wrapped broker call; the broker is abstracted as a function from
the attempt index to that attempt's outcome.
-/

/-- Retry options of sendMessage in kafka.producer.ts:
retries 3, minTimeout 500, factor 2. -/
def sendMessagePolicy : RetryPolicy := ⟨3, 500, 2⟩


/-- Model of sendMessage: producer.send to the topic wrapped in retry with
sendMessagePolicy; on exhaustion the catch block records the span status and
rethrows the final error to the caller. -/
def sendMessage {ε : Type} (broker : Nat → Except ε Unit) (jitter : Nat → ℚ) :
    RetryOutcome ε Unit :=
  retryCall broker sendMessagePolicy jitter


/-- Retry options of connectProducer in kafka.producer.ts:
retries 5, minTimeout 1000, factor 2. -/
def connectProducerPolicy : RetryPolicy := ⟨5, 1000, 2⟩


/-- Model of connectProducer: producer.connect wrapped in retry with
connectProducerPolicy; on exhaustion the error is rethrown. -/
def connectProducerRun {ε : Type} (conn : Nat → Except ε Unit) (jitter : Nat → ℚ) :
    RetryOutcome ε Unit :=
  retryCall conn connectProducerPolicy jitter


/-- Observable outcome of server startup (index.ts): whether app.listen ran. -/
structure ServerStartup where
  listening : Bool
deriving DecidableEq, Repr


/-- Model of startServer in index.ts: await connectProducer, and only then
call app.listen; a connect failure propagates and listen is never reached. -/
def startServer {ε : Type} (conn : Nat → Except ε Unit) (jitter : Nat → ℚ) :
    Except ε ServerStartup :=
  match (connectProducerRun conn jitter).result with
  | .error e => .error e
  | .ok _ => .ok ⟨true⟩


/-!
Relay Consumer (kafka.consumer.ts): group id and subscription configuration,
the connect-and-subscribe retry, and the per-message apply retry inside
eachMessage.
-/

/-- Consumer group id fixed in kafka.consumer.ts. -/
def consumerGroupId : String := "trade-group"


/-- Arguments of consumer.subscribe. -/
structure SubscribeArgs where
  topic : String
  fromBeginning : Bool
deriving DecidableEq, Repr


/-- Subscription made by startConsumer: the trade-events topic from the
earliest retained offset. -/
def consumerSubscribeArgs : SubscribeArgs := ⟨"trade-events", true⟩


/-- Retry options wrapping consumer.connect plus consumer.subscribe in
startConsumer: retries 5, minTimeout 1000, factor 2. -/
def consumerConnectPolicy : RetryPolicy := ⟨5, 1000, 2⟩


/-- Model of the connect-and-subscribe step of startConsumer. -/
def startConsumerConnect {ε : Type} (connSub : Nat → Except ε Unit) (jitter : Nat → ℚ) :
    RetryOutcome ε Unit :=
  retryCall connSub consumerConnectPolicy jitter


/-- Retry options of the dispatch switch inside eachMessage:
retries 3, minTimeout 500, factor 2. -/
def consumerApplyPolicy : RetryPolicy := ⟨3, 500, 2⟩


/-- Model of the retry-wrapped dispatch inside eachMessage; the store
application for the decoded envelope is abstracted as a function from the
attempt index to that attempt's outcome. -/
def eachMessageApply {ε α : Type} (applyOp : Nat → Except ε α) (jitter : Nat → ℚ) :
    RetryOutcome ε α :=
  retryCall applyOp consumerApplyPolicy jitter


/-- eachMessage resolves with the retry result: its catch block records the
span status and rethrows, so a final failure escapes the handler. -/
def eachMessageHandler {ε α : Type} (applyOp : Nat → Except ε α) (jitter : Nat → ℚ) :
    Except ε α :=
  (eachMessageApply applyOp jitter).result


/-- kafkajs advances the broker offset for a message exactly when the
eachMessage handler resolves without throwing. -/
def offsetAdvances {ε α : Type} (applyOp : Nat → Except ε α) (jitter : Nat → ℚ) : Bool :=
  succeeded (eachMessageHandler applyOp jitter)


/-- Broker that fails the first two send attempts and then succeeds. -/
def sendBrokerFlaky : Nat → Except String Unit :=
  fun i => if i < 2 then .error "send failed" else .ok ()


/-- Broker that fails every send attempt. -/
def sendBrokerDown : Nat → Except String Unit := fun _ => .error "send failed"


/-- Connection oracle that fails every attempt. -/
def connDown : Nat → Except String Unit := fun _ => .error "broker unreachable"


/-- Connection oracle that succeeds immediately. -/
def connUp : Nat → Except String Unit := fun _ => .ok ()


/-- Store application that fails on the first three attempts and succeeds on
the fourth. -/
def applyFlaky3 : Nat → Except String Unit :=
  fun i => if i < 3 then .error "store unavailable" else .ok ()


/-- Store application failing every attempt. -/
def applyDown : Nat → Except String Unit := fun _ => .error "db down"


/-!
Trade Store (db.service.ts over the Prisma schema).  Live and closed trade
rows; prices and fees are rationals standing for the Float columns, qty is an
Int column, and the DateTime columns are carried as their ISO-8601 strings.
Each db.service function is the corresponding Prisma call (its retry wrapper
re-runs the same deterministic state transition, modelled by
closeLiveTradeRetried for the close path).
-/

/-- A row of the LiveTrade table touched by the relay. -/
structure LiveTradeRec where
  id : String
  accountId : String
  symbol : String
  entryPrice : ℚ
  tradeType : String
  size : String
  qty : Int
  slPercentage : ℚ
  entryDate : String
deriving DecidableEq, Repr


/-- A row of the ClosedTrade table touched by the relay. -/
structure ClosedTradeRec where
  id : String
  accountId : String
  symbol : String
  entryPrice : ℚ
  exitPrice : ℚ
  tradeType : String
  size : String
  qty : Int
  entryDate : String
  fees : Option ℚ
  realizedPL : ℚ
deriving DecidableEq, Repr


/-- The store state: the live and closed trade tables. -/
structure Db where
  live : List LiveTradeRec
  closed : List ClosedTradeRec
deriving DecidableEq, Repr


/-- Errors raised by Prisma calls: delete and update on a missing unique row
raise record-not-found (P2025); create on an existing primary key raises a
unique-constraint violation (P2002). -/
inductive DbError where
  | recordNotFound
  | uniqueViolation
deriving DecidableEq, Repr


/-- prisma.liveTrade.delete on a unique id: raises when the row is absent,
otherwise returns the deleted row and removes it. -/
def prismaLiveTradeDelete (id : String) (st : Db) : Except DbError (LiveTradeRec × Db) :=
  match st.live.find? (fun t => t.id == id) with
  | none => .error .recordNotFound
  | some t => .ok (t, ⟨st.live.filter (fun u => u.id != id), st.closed⟩)


/-- prisma.liveTrade.create: raises on a duplicate primary key, otherwise
inserts the row. -/
def prismaLiveTradeCreate (t : LiveTradeRec) (st : Db) : Except DbError Db :=
  if st.live.any (fun u => u.id == t.id) then .error .uniqueViolation
  else .ok ⟨st.live ++ [t], st.closed⟩


/-- prisma.closedTrade.create: raises on a duplicate primary key, otherwise
inserts the row. -/
def prismaClosedTradeCreate (c : ClosedTradeRec) (st : Db) : Except DbError Db :=
  if st.closed.any (fun u => u.id == c.id) then .error .uniqueViolation
  else .ok ⟨st.live, st.closed ++ [c]⟩


/-- The Partial LiveTrade payload accepted by updateLiveTrade: every field of
the record may be present or absent. -/
structure LiveTradePatch where
  id : Option String
  accountId : Option String
  symbol : Option String
  entryPrice : Option ℚ
  tradeType : Option String
  size : Option String
  qty : Option Int
  slPercentage : Option ℚ
  entryDate : Option String
deriving DecidableEq, Repr


/-- The data block of prisma.liveTrade.update in updateLiveTrade: only
symbol, entryPrice, tradeType, size, qty and slPercentage are passed; a field
that is undefined in the patch is skipped by Prisma, leaving the column
unchanged. -/
def applyPatch (t : LiveTradeRec) (p : LiveTradePatch) : LiveTradeRec :=
  { t with
    symbol := p.symbol.getD t.symbol
    entryPrice := p.entryPrice.getD t.entryPrice
    tradeType := p.tradeType.getD t.tradeType
    size := p.size.getD t.size
    qty := p.qty.getD t.qty
    slPercentage := p.slPercentage.getD t.slPercentage }


/-- db.service createLiveTrade: insert the trade row. -/
def createLiveTrade (t : LiveTradeRec) (st : Db) : Except DbError Db :=
  prismaLiveTradeCreate t st


/-- db.service updateLiveTrade: prisma.liveTrade.update on the unique id with
the six-field data block; raises record-not-found when the row is absent. -/
def updateLiveTrade (id : String) (p : LiveTradePatch) (st : Db) :
    Except DbError (LiveTradeRec × Db) :=
  match st.live.find? (fun t => t.id == id) with
  | none => .error .recordNotFound
  | some t =>
    .ok (applyPatch t p,
      ⟨st.live.map (fun u => if u.id == id then applyPatch t p else u), st.closed⟩)


/-- db.service deleteLiveTrade: prisma.liveTrade.delete on the unique id. -/
def deleteLiveTrade (id : String) (st : Db) : Except DbError (LiveTradeRec × Db) :=
  prismaLiveTradeDelete id st


/-- The fees defaulting expression fees or-else 0 of closeLiveTrade
(JavaScript or returns the right operand when fees is undefined or 0). -/
def jsOrZero (fees : Option ℚ) : ℚ :=
  match fees with
  | none => 0
  | some f => if f == 0 then 0 else f


/-- The closed-trade row built by closeLiveTrade from the deleted live row
and the close arguments, including the realized profit-and-loss formula. -/
def closedOfLive (id : String) (exitPrice : ℚ) (fees : Option ℚ) (lt : LiveTradeRec) :
    ClosedTradeRec :=
  { id := id
    accountId := lt.accountId
    symbol := lt.symbol
    entryPrice := lt.entryPrice
    exitPrice := exitPrice
    tradeType := lt.tradeType
    size := lt.size
    qty := lt.qty
    entryDate := lt.entryDate
    fees := fees
    realizedPL := (exitPrice - lt.entryPrice) * (lt.qty : ℚ) - jsOrZero fees }


/-- db.service closeLiveTrade: delete the live row (raising if absent), then
create the closed row from it. -/
def closeLiveTrade (id : String) (exitPrice : ℚ) (fees : Option ℚ) (st : Db) :
    Except DbError (ClosedTradeRec × Db) :=
  match prismaLiveTradeDelete id st with
  | .error e => .error e
  | .ok (liveTrade, st1) =>
    match prismaClosedTradeCreate (closedOfLive id exitPrice fees liveTrade) st1 with
    | .error e => .error e
    | .ok st2 => .ok (closedOfLive id exitPrice fees liveTrade, st2)


/-- Retry options wrapped around every db.service Prisma call:
retries 3, minTimeout 500, factor 2. -/
def dbRetryPolicy : RetryPolicy := ⟨3, 500, 2⟩


/-- The close operation under its db.service retry wrapper; the store
transition is deterministic, so every attempt sees the same outcome. -/
def closeLiveTradeRetried (id : String) (exitPrice : ℚ) (fees : Option ℚ) (st : Db)
    (jitter : Nat → ℚ) : RetryOutcome DbError (ClosedTradeRec × Db) :=
  retryCall (fun _ => closeLiveTrade id exitPrice fees st) dbRetryPolicy jitter


/-- The live trade of the specification scenario: id t1, entry 150, qty 10. -/
def t1Live : LiveTradeRec :=
  ⟨"t1", "a1", "AAPL", 150, "Initial", "Full 25%", 10, 4, "2025-04-09T00:00:00.000Z"⟩


/-- Store holding exactly the live trade t1. -/
def dbWithT1 : Db := ⟨[t1Live], []⟩


/-- The closed row produced by closing t1 at exit 160 with fees 5. -/
def closedT1 : ClosedTradeRec := closedOfLive "t1" 160 (some 5) t1Live


/-- The store after the first full application of the TradeClosed envelope
for t1: the live row is gone and the closed row exists. -/
def dbAfterFirstClose : Db := ⟨[], [closedT1]⟩


/-- A patch that also carries id, accountId and entryDate values, as the
consumer passes the whole decoded trade object as the partial update. -/
def patchU : LiveTradePatch :=
  ⟨some "other", some "a9", some "MSFT", some 155, none, none, some 12, none,
    some "1999-01-01T00:00:00.000Z"⟩


/-!
Event Codec.  The producer encodes an envelope with JSON.stringify and the
consumer decodes with JSON.parse.  Envelopes built by the HTTP handlers are
flat objects: an event tag plus a trade object of primitive values, where
entryDate is a JavaScript Date.  JSON.stringify serializes a Date to its
ISO-8601 string (Date.prototype.toISOString) while JSON.parse returns plain
JSON values, so the codec is modelled on trees: JsPrim are the runtime
primitives (including Date), JsonPrim the JSON-representable ones.
-/

/-- Zero-pad a natural below 100 to two digits. -/
def pad2 (n : Nat) : String :=
  if n < 10 then "0" ++ toString n else toString n


/-- Zero-pad a natural below 1000 to three digits. -/
def pad3 (n : Nat) : String :=
  if n < 10 then "00" ++ toString n
  else if n < 100 then "0" ++ toString n
  else toString n


/-- Zero-pad a natural below 10000 to four digits. -/
def pad4 (n : Nat) : String :=
  if n < 10 then "000" ++ toString n
  else if n < 100 then "00" ++ toString n
  else if n < 1000 then "0" ++ toString n
  else toString n


/-- Zero-pad a natural to six digits for expanded years. -/
def pad6 (n : Nat) : String :=
  if n < 10 then "00000" ++ toString n
  else if n < 100 then "0000" ++ toString n
  else if n < 1000 then "000" ++ toString n
  else if n < 10000 then "00" ++ toString n
  else if n < 100000 then "0" ++ toString n
  else toString n


/-- Proleptic Gregorian date of a day count from the Unix epoch
(year, month, day). -/
def civilFromDays (z0 : Int) : Int × Nat × Nat :=
  let z := z0 + 719468
  let era := Int.fdiv z 146097
  let doe := (Int.fmod z 146097).toNat
  let yoe := (doe - doe / 1460 + doe / 36524 - doe / 146096) / 365
  let y := (yoe : Int) + era * 400
  let doy := doe - (365 * yoe + yoe / 4 - yoe / 100)
  let mp := (5 * doy + 2) / 153
  let d := doy - (153 * mp + 2) / 5 + 1
  let m := if mp < 10 then mp + 3 else mp - 9
  (if m ≤ 2 then y + 1 else y, m, d)


/-- Date.prototype.toISOString on milliseconds since the Unix epoch. -/
def toISOString (ms : Int) : String :=
  let day := Int.fdiv ms 86400000
  let msod := (Int.fmod ms 86400000).toNat
  let ymd := civilFromDays day
  let y := ymd.1
  let m := ymd.2.1
  let d := ymd.2.2
  let hh := msod / 3600000
  let mm := msod % 3600000 / 60000
  let ss := msod % 60000 / 1000
  let mss := msod % 1000
  let ystr :=
    if 0 ≤ y ∧ y ≤ 9999 then pad4 y.toNat
    else (if y < 0 then "-" else "+") ++ pad6 y.natAbs
  ystr ++ "-" ++ pad2 m ++ "-" ++ pad2 d ++ "T" ++ pad2 hh ++ ":" ++ pad2 mm ++
    ":" ++ pad2 ss ++ "." ++ pad3 mss ++ "Z"


/-- Runtime primitive values appearing in a trade payload, including the
Date stored in entryDate. -/
inductive JsPrim where
  | null
  | bool (b : Bool)
  | num (q : ℚ)
  | str (s : String)
  | date (ms : Int)
deriving DecidableEq, Repr


/-- JSON primitive values, as produced by JSON.parse. -/
inductive JsonPrim where
  | null
  | bool (b : Bool)
  | num (q : ℚ)
  | str (s : String)
deriving DecidableEq, Repr


/-- An envelope as held by the producer before serialization: the event tag
and the flat trade payload. -/
structure TransportEnvelope where
  event : String
  trade : List (String × JsPrim)
deriving DecidableEq, Repr


/-- An envelope as it stands on the wire after JSON.stringify and before any
runtime conversion: only JSON values remain. -/
structure WireEnvelope where
  event : String
  trade : List (String × JsonPrim)
deriving DecidableEq, Repr


/-- JSON.stringify on one primitive: a Date becomes its ISO-8601 string. -/
def encodePrim : JsPrim → JsonPrim
  | .null => .null
  | .bool b => .bool b
  | .num q => .num q
  | .str s => .str s
  | .date ms => .str (toISOString ms)


/-- JSON.parse on one primitive: JSON values map to themselves; no Date is
ever produced. -/
def decodePrim : JsonPrim → JsPrim
  | .null => .null
  | .bool b => .bool b
  | .num q => .num q
  | .str s => .str s


/-- Producer serialization of an envelope (JSON.stringify at tree level). -/
def encodeEnvelope (e : TransportEnvelope) : WireEnvelope :=
  ⟨e.event, e.trade.map (fun kv => (kv.1, encodePrim kv.2))⟩


/-- Consumer deserialization of an envelope (JSON.parse at tree level). -/
def decodeEnvelope (w : WireEnvelope) : TransportEnvelope :=
  ⟨w.event, w.trade.map (fun kv => (kv.1, decodePrim kv.2))⟩


/-- Whether a primitive is a Date value. -/
def isDate : JsPrim → Bool
  | .date _ => true
  | _ => false


/-- The TradeCreated envelope of the specification scenario with its
entryDate carried as a Date (the epoch instant). -/
def tradeCreatedWithDate : TransportEnvelope :=
  ⟨"TradeCreated",
    [("id", .str "t1"), ("accountId", .str "a1"), ("symbol", .str "AAPL"),
      ("entryPrice", .num 150), ("tradeType", .str "Initial"),
      ("size", .str "Full 25%"), ("qty", .num 10), ("slPercentage", .num 4),
      ("entryDate", .date 0)]⟩


/-- The same payload with the entryDate already a plain ISO string. -/
def tradeCreatedPlain : TransportEnvelope :=
  ⟨"TradeCreated",
    [("id", .str "t1"), ("accountId", .str "a1"), ("symbol", .str "AAPL"),
      ("entryPrice", .num 150), ("tradeType", .str "Initial"),
      ("size", .str "Full 25%"), ("qty", .num 10), ("slPercentage", .num 4),
      ("entryDate", .str "1970-01-01T00:00:00.000Z")]⟩


/-!
Consumer dispatch (kafka.consumer.ts).  eachMessage parses the message value
with JSON.parse (an absent value falls back to the empty-object text) and
switches on data.event with no default case and no validation of the decoded
shape.  A parsed message is modelled as a two-level object: top-level fields
are primitives or one nested object (the trade payload).  The switch arms
read data.trade and its fields with JavaScript member-access semantics:
reading a property of undefined or null throws a TypeError.  Prisma rejects
calls whose required arguments are missing or of the wrong type, except that
the LiveTrade columns id and entryDate carry schema defaults (uuid() and
now()), so a TradeCreated payload may omit them and the store silently
assigns them.  The dispatch threads the store state through errors because
closeLiveTrade runs its delete and create as two separate awaits with no
transaction: when the create fails, the delete has already been committed,
and the db.service retry wrapper re-runs the whole compound step against
that partially mutated state (genId and nowDate stand for the values the
store would generate for the defaulted columns).
-/

/-- A top-level field value of a parsed message: a JSON primitive or the
nested trade object. -/
inductive JVal where
  | prim (p : JsonPrim)
  | obj (fields : List (String × JsonPrim))
deriving DecidableEq, Repr


/-- JavaScript property lookup on an object literal (absent key reads as
undefined, modelled by none). -/
def jlookup {α : Type} (fields : List (String × α)) (k : String) : Option α :=
  (fields.find? (fun kv => kv.1 == k)).map (fun kv => kv.2)


/-- Read a string-valued property. -/
def getStr (fields : List (String × JsonPrim)) (k : String) : Option String :=
  match jlookup fields k with
  | some (.str s) => some s
  | _ => none


/-- Read a number-valued property. -/
def getNum (fields : List (String × JsonPrim)) (k : String) : Option ℚ :=
  match jlookup fields k with
  | some (.num q) => some q
  | _ => none


/-- A string primitive, when the value is one. -/
def asStr : JsonPrim → Option String
  | .str s => some s
  | _ => none


/-- A number primitive, when the value is one. -/
def asNum : JsonPrim → Option ℚ
  | .num q => some q
  | _ => none


/-- An integer primitive, when the value is a whole number. -/
def asInt (p : JsonPrim) : Option Int :=
  match asNum p with
  | some q => if q.den == 1 then some q.num else none
  | none => none


/-- Read an integer-valued property. -/
def getInt (fields : List (String × JsonPrim)) (k : String) : Option Int :=
  match jlookup fields k with
  | some p => asInt p
  | none => none


/-- Read an optional property: absent is fine (none), present with the wrong
shape is a failure of the whole extraction. -/
def optField {β : Type} (fields : List (String × JsonPrim)) (k : String)
    (extract : JsonPrim → Option β) : Option (Option β) :=
  match jlookup fields k with
  | none => some none
  | some v =>
    match extract v with
    | some b => some (some b)
    | none => none


/-- The live-trade row Prisma accepts from the cast trade payload of a
TradeCreated event.  The columns without schema defaults (accountId, symbol,
entryPrice, tradeType, size, qty, slPercentage) must be present with their
column types or the create call is rejected; id and entryDate may be absent,
in which case Prisma fills them from the schema defaults uuid() and now()
(genId and nowDate), but a present value of the wrong type is rejected. -/
def liveTradeOfFields (fs : List (String × JsonPrim)) (genId nowDate : String) :
    Option LiveTradeRec :=
  match optField fs "id" asStr, getStr fs "accountId", getStr fs "symbol",
      getNum fs "entryPrice", getStr fs "tradeType", getStr fs "size",
      getInt fs "qty", getNum fs "slPercentage", optField fs "entryDate" asStr with
  | some id, some accountId, some symbol, some entryPrice, some tradeType,
      some size, some qty, some slPercentage, some entryDate =>
    some ⟨id.getD genId, accountId, symbol, entryPrice, tradeType, size, qty,
      slPercentage, entryDate.getD nowDate⟩
  | _, _, _, _, _, _, _, _, _ => none


/-- The partial update Prisma accepts from a TradeUpdated trade payload.
Only the six fields of the update data block (symbol, entryPrice, tradeType,
size, qty, slPercentage) are forwarded to Prisma, so only they are
type-checked; id, accountId and entryDate values in the payload are never
passed on and are carried leniently (a mistyped one is simply ignored, like
an absent one). -/
def patchOfFields (fs : List (String × JsonPrim)) : Option LiveTradePatch :=
  match optField fs "symbol" asStr, optField fs "entryPrice" asNum,
      optField fs "tradeType" asStr, optField fs "size" asStr,
      optField fs "qty" asInt, optField fs "slPercentage" asNum with
  | some symbol, some entryPrice, some tradeType, some size, some qty,
      some slPercentage =>
    some ⟨getStr fs "id", getStr fs "accountId", symbol, entryPrice, tradeType,
      size, qty, slPercentage, getStr fs "entryDate"⟩
  | _, _, _, _, _, _ => none


/-- Errors the dispatch switch can raise: a JavaScript TypeError from
property access on undefined or null, a Prisma rejection of missing or
mistyped arguments, or a store error. -/
inductive ConsumerError where
  | typeError
  | validationError
  | db (e : DbError)
deriving DecidableEq, Repr


/-- One attempt of a db.service call as seen by the dispatch: the raised
error, if any, together with the store state it leaves behind. -/
def retryState (step : Db → Option ConsumerError × Db) : Nat → Db → Option ConsumerError × Db
  | 0, st => step st
  | fuel + 1, st =>
    match step st with
    | (none, st') => (none, st')
    | (some _, st') => retryState step fuel st'


/-- The db.service retry wrapper around one store call, threading the store
state across attempts; async-retry surfaces the error of the last attempt. -/
def dbRetried (step : Db → Option ConsumerError × Db) (st : Db) :
    Option ConsumerError × Db :=
  retryState step dbRetryPolicy.retries st


/-- The fees argument as the create call sees it: absent is fine (fees is an
optional column), a present number passes through, anything else is rejected
by Prisma at the create. -/
def feesOfRaw : Option JsonPrim → Option (Option ℚ)
  | none => some none
  | some p => (asNum p).map some


/-- One attempt of closeLiveTrade as called from the switch with possibly
undefined arguments: the delete is committed first (the two Prisma calls are
separate awaits with no transaction), so when the create is then rejected —
exitPrice missing or mistyped, fees mistyped, or a duplicate closed row —
the live row is already gone and the error leaves that partial state. -/
def closeLiveTradeDyn (id : String) (exitPrice : Option ℚ) (feesRaw : Option JsonPrim)
    (st : Db) : Option ConsumerError × Db :=
  match prismaLiveTradeDelete id st with
  | .error e => (some (.db e), st)
  | .ok (lt, st1) =>
    match exitPrice, feesOfRaw feesRaw with
    | some p1, some fees =>
      match prismaClosedTradeCreate (closedOfLive id p1 fees lt) st1 with
      | .error e => (some (.db e), st1)
      | .ok st2 => (none, st2)
    | _, _ => (some .validationError, st1)


/-- The switch on data.event inside eachMessage.  Each recognized tag calls
the matching db.service operation (under its retry wrapper) on the trade
payload; any other value of data.event, including its absence, matches no
case and completes without doing anything — the switch has no default arm.
genId and nowDate stand for the uuid() and now() defaults the store would
assign to a TradeCreated row that omits id or entryDate. -/
def dispatchTradeEvent (genId nowDate : String) (data : List (String × JVal)) (st : Db) :
    Option ConsumerError × Db :=
  match jlookup data "event" with
  | some (.prim (.str "TradeCreated")) =>
    match jlookup data "trade" with
    | none => (some .typeError, st)
    | some (.prim .null) => (some .typeError, st)
    | some (.prim _) => (some .validationError, st)
    | some (.obj fs) =>
      dbRetried (fun st0 =>
        match liveTradeOfFields fs genId nowDate with
        | none => (some .validationError, st0)
        | some t =>
          match createLiveTrade t st0 with
          | .error e => (some (.db e), st0)
          | .ok st' => (none, st')) st
  | some (.prim (.str "TradeUpdated")) =>
    match jlookup data "trade" with
    | none => (some .typeError, st)
    | some (.prim .null) => (some .typeError, st)
    | some (.prim _) => (some .validationError, st)
    | some (.obj fs) =>
      dbRetried (fun st0 =>
        match getStr fs "id" with
        | none => (some .validationError, st0)
        | some id =>
          match patchOfFields fs with
          | none => (some .validationError, st0)
          | some p =>
            match updateLiveTrade id p st0 with
            | .error e => (some (.db e), st0)
            | .ok (_, st') => (none, st')) st
  | some (.prim (.str "TradeDeleted")) =>
    match jlookup data "trade" with
    | none => (some .typeError, st)
    | some (.prim .null) => (some .typeError, st)
    | some (.prim _) => (some .validationError, st)
    | some (.obj fs) =>
      dbRetried (fun st0 =>
        match getStr fs "id" with
        | none => (some .validationError, st0)
        | some id =>
          match deleteLiveTrade id st0 with
          | .error e => (some (.db e), st0)
          | .ok (_, st') => (none, st')) st
  | some (.prim (.str "TradeClosed")) =>
    match jlookup data "trade" with
    | none => (some .typeError, st)
    | some (.prim .null) => (some .typeError, st)
    | some (.prim _) => (some .validationError, st)
    | some (.obj fs) =>
      dbRetried (fun st0 =>
        match getStr fs "id" with
        | none => (some .validationError, st0)
        | some id =>
          closeLiveTradeDyn id (getNum fs "exitPrice") (jlookup fs "fees") st0) st
  | _ => (none, st)


/-- The event tag of a parsed message, when data.event is a string. -/
def eventTag (data : List (String × JVal)) : Option String :=
  match jlookup data "event" with
  | some (.prim (.str s)) => some s
  | _ => none


/-- The closed enumeration of recognized event tags. -/
def tradeEventTags : List String :=
  ["TradeCreated", "TradeUpdated", "TradeDeleted", "TradeClosed"]


/-- Whether the parsed message carries a recognized event tag. -/
def isKnownEvent (data : List (String × JVal)) : Bool :=
  match eventTag data with
  | some s => tradeEventTags.contains s
  | none => false


/-- A TradeCreated payload whose trade omits both id and entryDate (the two
columns the Prisma schema defaults). -/
def tradeCreatedNoId : List (String × JVal) :=
  [("event", .prim (.str "TradeCreated")),
    ("trade", .obj [("accountId", .str "a1"), ("symbol", .str "AAPL"),
      ("entryPrice", .num 150), ("tradeType", .str "Initial"),
      ("size", .str "Full 25%"), ("qty", .num 10), ("slPercentage", .num 4)])]


/-- The row the store silently creates from tradeCreatedNoId: the id and
entryDate come from the schema defaults, not from the payload. -/
def createdDefaultRow : LiveTradeRec :=
  ⟨"uuid-1", "a1", "AAPL", 150, "Initial", "Full 25%", 10, 4,
    "2025-01-01T00:00:00.000Z"⟩


/-!
Command Emitter: the create-trade HTTP handler (trade.controller.ts).  The
body is validated with the zod live-trade schema (trade.schema.ts), the
trade id is generated locally from Math.random before publishing, the
TradeCreated envelope is handed to sendMessage and awaited, and the catch
block maps any failure — validation or publish — to a 400 response.
-/

/-- Enum TradeType from types.ts. -/
inductive TradeType where
  | Initial
  | FreeRoll
  | Reduced
  | Added
deriving DecidableEq, Repr


/-- The string value of a TradeType member. -/
def TradeType.value : TradeType → String
  | .Initial => "Initial"
  | .FreeRoll => "Free Roll"
  | .Reduced => "Reduced"
  | .Added => "Added"


/-- Enum TradeSize from types.ts. -/
inductive TradeSize where
  | Qtr
  | Half
  | Full
  | Double
deriving DecidableEq, Repr


/-- The string value of a TradeSize member. -/
def TradeSize.value : TradeSize → String
  | .Qtr => "Qtr 6.25%"
  | .Half => "Half 12.50%"
  | .Full => "Full 25%"
  | .Double => "2X Full 50%"


/-- z.nativeEnum(TradeType): accept exactly the enum values. -/
def tradeTypeOfString (s : String) : Option TradeType :=
  if s == "Initial" then some .Initial
  else if s == "Free Roll" then some .FreeRoll
  else if s == "Reduced" then some .Reduced
  else if s == "Added" then some .Added
  else none


/-- z.nativeEnum(TradeSize): accept exactly the enum values. -/
def tradeSizeOfString (s : String) : Option TradeSize :=
  if s == "Qtr 6.25%" then some .Qtr
  else if s == "Half 12.50%" then some .Half
  else if s == "Full 25%" then some .Full
  else if s == "2X Full 50%" then some .Double
  else none


/-- The raw JSON body of a create-trade request, before validation: each
schema key may be absent or hold any primitive. -/
structure CreateTradeBody where
  accountId : Option JsonPrim
  symbol : Option JsonPrim
  entryPrice : Option JsonPrim
  tradeType : Option JsonPrim
  size : Option JsonPrim
  qty : Option JsonPrim
  slPercentage : Option JsonPrim
deriving DecidableEq, Repr


/-- z.string() on a raw field. -/
def zodString : Option JsonPrim → Option String
  | some (.str s) => some s
  | _ => none


/-- z.number() on a raw field. -/
def zodNumber : Option JsonPrim → Option ℚ
  | some (.num q) => some q
  | _ => none


/-- The validated output of the live-trade schema. -/
structure LiveTradeInput where
  accountId : String
  symbol : String
  entryPrice : ℚ
  tradeType : TradeType
  size : TradeSize
  qty : Int
  slPercentage : ℚ
deriving DecidableEq, Repr


/-- liveTradeSchema.parse from trade.schema.ts: accountId a string, symbol a
non-empty string, entryPrice a positive number, tradeType and size members
of their enums, qty a positive integer, slPercentage between 1 and 8;
none models the ZodError throw. -/
def liveTradeSchemaParse (b : CreateTradeBody) : Option LiveTradeInput :=
  match zodString b.accountId, zodString b.symbol, zodNumber b.entryPrice,
      zodString b.tradeType, zodString b.size, zodNumber b.qty,
      zodNumber b.slPercentage with
  | some accountId, some symbol, some entryPrice, some tradeTypeStr, some sizeStr,
      some qty, some slPercentage =>
    match tradeTypeOfString tradeTypeStr, tradeSizeOfString sizeStr with
    | some tradeType, some size =>
      if 1 ≤ symbol.length ∧ 0 < entryPrice ∧ qty.den = 1 ∧ 0 < qty ∧
          1 ≤ slPercentage ∧ slPercentage ≤ 8 then
        some ⟨accountId, symbol, entryPrice, tradeType, size, qty.num, slPercentage⟩
      else none
    | _, _ => none
  | _, _, _, _, _, _, _ => none


/-- The LiveTrade value the handler builds: the locally generated id, the
validated fields, and the current instant as entryDate. -/
structure LiveTradeMsg where
  id : String
  accountId : String
  symbol : String
  entryPrice : ℚ
  tradeType : TradeType
  size : TradeSize
  qty : Int
  slPercentage : ℚ
  entryDate : Int
deriving DecidableEq, Repr


/-- The envelope handed to sendMessage by the handler. -/
structure TradeEventMsg where
  event : String
  trade : LiveTradeMsg
deriving DecidableEq, Repr


/-- An HTTP response paired with the envelope the handler published, if it
published one (the publish call is awaited before responding). -/
structure HandlerResult where
  status : Nat
  published : Option TradeEventMsg
deriving DecidableEq, Repr


/-- Whether a status code is a success (2xx) status. -/
def is2xx (s : Nat) : Bool := 200 ≤ s && s < 300


/-- The TradeCreated envelope the handler builds and publishes: the
validated fields under the locally generated id and the current date. -/
def handlerEnvelope (d : LiveTradeInput) (newId : String) (now : Int) : TradeEventMsg :=
  ⟨"TradeCreated",
    ⟨newId, d.accountId, d.symbol, d.entryPrice, d.tradeType, d.size, d.qty,
      d.slPercentage, now⟩⟩


/-- The createLiveTrade handler of trade.controller.ts: parse the body with
the live-trade schema, build the trade with a locally generated id and the
current date, await sendMessage on the TradeCreated envelope, and answer 201
with the trade, or 400 from the catch block when parsing or publishing
throws.  newId stands for the Math.random id, now for the Date value, and
publish for the awaited sendMessage outcome. -/
def createLiveTradeHandler (body : CreateTradeBody) (newId : String) (now : Int)
    (publish : TradeEventMsg → Except String Unit) : HandlerResult :=
  match liveTradeSchemaParse body with
  | none => ⟨400, none⟩
  | some d =>
    match publish (handlerEnvelope d newId now) with
    | .ok _ => ⟨201, some (handlerEnvelope d newId now)⟩
    | .error _ => ⟨400, some (handlerEnvelope d newId now)⟩


/-- A create-trade body matching the specification scenario. -/
def goodBody : CreateTradeBody :=
  ⟨some (.str "a1"), some (.str "AAPL"), some (.num 150), some (.str "Initial"),
    some (.str "Full 25%"), some (.num 10), some (.num 4)⟩


/-- A create-trade body with a mistyped entryPrice. -/
def badBody : CreateTradeBody :=
  ⟨some (.str "a1"), some (.str "AAPL"), some (.str "150"), some (.str "Initial"),
    some (.str "Full 25%"), some (.num 10), some (.num 4)⟩


/-- The parsed form of goodBody. -/
def goodInput : LiveTradeInput := ⟨"a1", "AAPL", 150, .Initial, .Full, 10, 4⟩


/-- A publish outcome that always fails. -/
def publishDown : TradeEventMsg → Except String Unit := fun _ => .error "publish failed"


theorem retryAux_ok {ε α : Type} {op : Nat → Except ε α} {p : RetryPolicy}
    {jitter : Nat → ℚ} {attempt : Nat} {a : α} (h : op attempt = .ok a)
    (fuel : Nat) (w : ℚ) :
    retryAux op p jitter attempt fuel w = ⟨.ok a, attempt + 1, w⟩ := by
  unfold retryAux
  rw [h]


theorem retryAux_err_zero {ε α : Type} {op : Nat → Except ε α} {p : RetryPolicy}
    {jitter : Nat → ℚ} {attempt : Nat} {e : ε} (h : op attempt = .error e) (w : ℚ) :
    retryAux op p jitter attempt 0 w = ⟨.error e, attempt + 1, w⟩ := by
  unfold retryAux
  rw [h]


theorem retryAux_err_succ {ε α : Type} {op : Nat → Except ε α} {p : RetryPolicy}
    {jitter : Nat → ℚ} {attempt : Nat} {e : ε} (h : op attempt = .error e)
    (fuel : Nat) (w : ℚ) :
    retryAux op p jitter attempt (fuel + 1) w =
      retryAux op p jitter (attempt + 1) fuel
        (w + jitter attempt * nominalSleep p attempt) := by
  conv_lhs => unfold retryAux
  rw [h]


theorem retryAux_allFail {ε α : Type} (op : Nat → Except ε α) (p : RetryPolicy)
    (jitter : Nat → ℚ) (h : ∀ i, succeeded (op i) = false) (fuel : Nat) :
    ∀ (attempt : Nat) (w : ℚ), retryAux op p jitter attempt fuel w =
      ⟨op (attempt + fuel), attempt + fuel + 1, w + backoffSum p jitter attempt fuel⟩ := by
  induction fuel with
  | zero =>
    intro attempt w
    have hh := h attempt
    cases hop : op attempt with
    | ok a => rw [hop] at hh; simp [succeeded] at hh
    | error e => rw [retryAux_err_zero hop]; simp [backoffSum, hop]
  | succ fuel ih =>
    intro attempt w
    have hh := h attempt
    cases hop : op attempt with
    | ok a => rw [hop] at hh; simp [succeeded] at hh
    | error e =>
      rw [retryAux_err_succ hop, ih]
      have h1 : attempt + 1 + fuel = attempt + (fuel + 1) := by omega
      rw [h1]
      congr 1
      rw [backoffSum, add_assoc]


theorem retryAux_succAt {ε α : Type} (op : Nat → Except ε α) (p : RetryPolicy)
    (jitter : Nat → ℚ) (v : α) :
    ∀ (n attempt fuel : Nat) (w : ℚ), n ≤ fuel →
      (∀ i, i < n → succeeded (op (attempt + i)) = false) →
      op (attempt + n) = .ok v →
      retryAux op p jitter attempt fuel w =
        ⟨.ok v, attempt + n + 1, w + backoffSum p jitter attempt n⟩ := by
  intro n
  induction n with
  | zero =>
    intro attempt fuel w _ _ hs
    rw [Nat.add_zero] at hs
    rw [retryAux_ok hs]
    simp [backoffSum]
  | succ n ih =>
    intro attempt fuel w hle hf hs
    have h0 : succeeded (op attempt) = false := by
      have := hf 0 (by omega)
      simpa using this
    cases hop : op attempt with
    | ok a => rw [hop] at h0; simp [succeeded] at h0
    | error e =>
      cases fuel with
      | zero => omega
      | succ fuel' =>
        rw [retryAux_err_succ hop]
        have hf' : ∀ i, i < n → succeeded (op (attempt + 1 + i)) = false := by
          intro i hi
          have := hf (i + 1) (by omega)
          have harith : attempt + (i + 1) = attempt + 1 + i := by omega
          rwa [harith] at this
        have hs' : op (attempt + 1 + n) = .ok v := by
          have harith : attempt + 1 + n = attempt + (n + 1) := by omega
          rwa [harith]
        rw [ih (attempt + 1) fuel' _ (by omega) hf' hs']
        have h1 : attempt + 1 + n = attempt + (n + 1) := by omega
        rw [h1]
        congr 1
        rw [backoffSum, add_assoc]


theorem retryAux_attempts_le {ε α : Type} (op : Nat → Except ε α) (p : RetryPolicy)
    (jitter : Nat → ℚ) :
    ∀ (fuel attempt : Nat) (w : ℚ),
      (retryAux op p jitter attempt fuel w).attempts ≤ attempt + fuel + 1 := by
  intro fuel
  induction fuel with
  | zero =>
    intro attempt w
    cases hop : op attempt with
    | ok a => rw [retryAux_ok hop]
    | error e => rw [retryAux_err_zero hop]
  | succ fuel ih =>
    intro attempt w
    cases hop : op attempt with
    | ok a =>
      rw [retryAux_ok hop]
      show attempt + 1 ≤ attempt + (fuel + 1) + 1
      omega
    | error e =>
      rw [retryAux_err_succ hop]
      have := ih (attempt + 1) (w + jitter attempt * nominalSleep p attempt)
      omega


theorem retryAux_ok_inv {ε α : Type} (op : Nat → Except ε α) (p : RetryPolicy)
    (jitter : Nat → ℚ) (v : α) :
    ∀ (fuel attempt : Nat) (w : ℚ), (retryAux op p jitter attempt fuel w).result = .ok v →
      ∃ i, attempt ≤ i ∧ i ≤ attempt + fuel ∧ op i = .ok v := by
  intro fuel
  induction fuel with
  | zero =>
    intro attempt w hres
    cases hop : op attempt with
    | ok a =>
      rw [retryAux_ok hop] at hres
      simp at hres
      exact ⟨attempt, by omega, by omega, by rw [hop, hres]⟩
    | error e =>
      rw [retryAux_err_zero hop] at hres
      simp at hres
  | succ fuel ih =>
    intro attempt w hres
    cases hop : op attempt with
    | ok a =>
      rw [retryAux_ok hop] at hres
      simp at hres
      exact ⟨attempt, by omega, by omega, by rw [hop, hres]⟩
    | error e =>
      rw [retryAux_err_succ hop] at hres
      obtain ⟨i, h1, h2, h3⟩ := ih (attempt + 1) _ hres
      exact ⟨i, by omega, by omega, h3⟩


theorem le_backoffSum (p : RetryPolicy) (jitter : Nat → ℚ) (h : ∀ k, 1 ≤ jitter k) :
    ∀ fuel attempt, backoffSum p unitJitter attempt fuel ≤ backoffSum p jitter attempt fuel := by
  intro fuel
  induction fuel with
  | zero =>
    intro attempt
    simp [backoffSum]
  | succ fuel ih =>
    intro attempt
    simp only [backoffSum]
    have hterm : unitJitter attempt * nominalSleep p attempt ≤
        jitter attempt * nominalSleep p attempt := by
      apply mul_le_mul_of_nonneg_right (h attempt)
      unfold nominalSleep
      exact Nat.cast_nonneg _
    exact add_le_add hterm (ih (attempt + 1))


theorem okCount_of_firstOk {ε α : Type} (op : Nat → Except ε α) (n : Nat)
    (hf : ∀ i, i < n → succeeded (op i) = false) (hs : succeeded (op n) = true) :
    okCount op (n + 1) = 1 := by
  unfold okCount
  rw [List.range_succ, List.countP_append]
  have hz : (List.range n).countP (fun i => succeeded (op i)) = 0 := by
    rw [List.countP_eq_zero]
    intro a ha
    rw [List.mem_range] at ha
    simp [hf a ha]
  rw [hz]
  simp [hs]


theorem retryCall_succeeds {ε α : Type} (op : Nat → Except ε α) (p : RetryPolicy)
    (jitter : Nat → ℚ) (v : α) (n : Nat) (hn : n ≤ p.retries)
    (hf : ∀ i, i < n → succeeded (op i) = false) (hs : op n = .ok v) :
    retryCall op p jitter = ⟨.ok v, n + 1, backoffSum p jitter 0 n⟩ := by
  unfold retryCall
  have hf' : ∀ i, i < n → succeeded (op (0 + i)) = false := by
    intro i hi
    rw [Nat.zero_add]
    exact hf i hi
  have hs' : op (0 + n) = .ok v := by
    rw [Nat.zero_add]
    exact hs
  rw [retryAux_succAt op p jitter v n 0 p.retries 0 hn hf' hs']
  simp


theorem retryCall_allFail {ε α : Type} (op : Nat → Except ε α) (p : RetryPolicy)
    (jitter : Nat → ℚ) (h : ∀ i, succeeded (op i) = false) :
    retryCall op p jitter =
      ⟨op p.retries, p.retries + 1, backoffSum p jitter 0 p.retries⟩ := by
  unfold retryCall
  rw [retryAux_allFail op p jitter h p.retries 0 0]
  simp


theorem retryCall_attempts_le {ε α : Type} (op : Nat → Except ε α) (p : RetryPolicy)
    (jitter : Nat → ℚ) :
    (retryCall op p jitter).attempts ≤ p.retries + 1 := by
  unfold retryCall
  have := retryAux_attempts_le op p jitter p.retries 0 0
  omega


theorem retryCall_ok_inv {ε α : Type} (op : Nat → Except ε α) (p : RetryPolicy)
    (jitter : Nat → ℚ) (v : α) (h : (retryCall op p jitter).result = .ok v) :
    ∃ i, i ≤ p.retries ∧ op i = .ok v := by
  unfold retryCall at h
  obtain ⟨i, h1, h2, h3⟩ := retryAux_ok_inv op p jitter v p.retries 0 0 h
  exact ⟨i, by omega, h3⟩


/-- C5: publish retries sending up to 3 times with 500ms base backoff and
factor 2; an operation succeeding within the budget yields a success with
exactly one successful send and no surfaced error, while an operation failing
every attempt surfaces the final error with cumulative backoff at least
500ms + 1000ms. -/
theorem unit_backoffSum_send :
    backoffSum sendMessagePolicy unitJitter 0 sendMessagePolicy.retries = 3500 := by
  norm_num [backoffSum, nominalSleep, unitJitter, sendMessagePolicy]


theorem unit_backoffSum_connect :
    backoffSum connectProducerPolicy unitJitter 0 connectProducerPolicy.retries = 31000 := by
  norm_num [backoffSum, nominalSleep, unitJitter, connectProducerPolicy]


theorem unit_backoffSum_apply :
    backoffSum consumerApplyPolicy unitJitter 0 consumerApplyPolicy.retries = 3500 := by
  norm_num [backoffSum, nominalSleep, unitJitter, consumerApplyPolicy]


theorem sendMessage_retry_spec :
    (∀ (broker : Nat → Except String Unit) (jitter : Nat → ℚ) (n : Nat),
      n ≤ 3 → (∀ i, i < n → succeeded (broker i) = false) → broker n = .ok () →
      (sendMessage broker jitter).result = .ok () ∧
      (sendMessage broker jitter).attempts = n + 1 ∧
      okCount broker (sendMessage broker jitter).attempts = 1) ∧
    (∀ (broker : Nat → Except String Unit) (jitter : Nat → ℚ) (e : String),
      (∀ i, broker i = .error e) → (∀ k, 1 ≤ jitter k) →
      (sendMessage broker jitter).result = .error e ∧
      500 + 1000 ≤ (sendMessage broker jitter).totalWait) := by
  constructor
  · intro broker jitter n hn hf hs
    have hmain : sendMessage broker jitter =
        ⟨.ok (), n + 1, backoffSum sendMessagePolicy jitter 0 n⟩ :=
      retryCall_succeeds broker sendMessagePolicy jitter () n hn hf hs
    refine ⟨by rw [hmain], by rw [hmain], ?_⟩
    rw [hmain]
    exact okCount_of_firstOk broker n hf (by rw [hs]; rfl)
  · intro broker jitter e h hj
    have hfail : ∀ i, succeeded (broker i) = false := by
      intro i
      rw [h i]
      rfl
    have hmain : sendMessage broker jitter =
        ⟨broker sendMessagePolicy.retries, sendMessagePolicy.retries + 1,
          backoffSum sendMessagePolicy jitter 0 sendMessagePolicy.retries⟩ :=
      retryCall_allFail broker sendMessagePolicy jitter hfail
    constructor
    · rw [hmain]
      exact h 3
    · rw [hmain]
      show (500 : ℚ) + 1000 ≤ backoffSum sendMessagePolicy jitter 0 sendMessagePolicy.retries
      calc (500 : ℚ) + 1000 ≤ 3500 := by norm_num
        _ = backoffSum sendMessagePolicy unitJitter 0 sendMessagePolicy.retries :=
          unit_backoffSum_send.symm
        _ ≤ backoffSum sendMessagePolicy jitter 0 sendMessagePolicy.retries :=
          le_backoffSum sendMessagePolicy jitter hj sendMessagePolicy.retries 0


/-- Witness for C5 at a broker failing twice then succeeding, and at a broker
that never succeeds. -/
theorem sendMessage_retry_spec_witness :
    (sendMessage sendBrokerFlaky unitJitter).result = .ok () ∧
    (sendMessage sendBrokerFlaky unitJitter).attempts = 3 ∧
    okCount sendBrokerFlaky (sendMessage sendBrokerFlaky unitJitter).attempts = 1 ∧
    (sendMessage sendBrokerDown unitJitter).result = .error "send failed" ∧
    500 + 1000 ≤ (sendMessage sendBrokerDown unitJitter).totalWait := by
  have h1 := sendMessage_retry_spec.1 sendBrokerFlaky unitJitter 2 (by omega)
    (by intro i hi; simp [sendBrokerFlaky, hi, succeeded]) rfl
  have h2 := sendMessage_retry_spec.2 sendBrokerDown unitJitter "send failed" (fun _ => rfl)
    (fun _ => le_refl 1)
  exact ⟨h1.1, h1.2.1, h1.2.2, h2.1, h2.2⟩


/-- C7: connectProducer retries up to 5 times with randomized exponential
backoff on a 1s base and factor 2 (so an exhausted budget waits at least
1000+2000+4000+8000+16000 ms); exhausting the retries surfaces the connection
error, startServer propagates it without reaching app.listen, and the server
listens only if some connect attempt within the budget succeeded. -/
theorem connectProducer_startup_spec :
    connectProducerPolicy = ⟨5, 1000, 2⟩ ∧
    (∀ (conn : Nat → Except String Unit) (jitter : Nat → ℚ),
      (connectProducerRun conn jitter).attempts ≤ 6) ∧
    (∀ (conn : Nat → Except String Unit) (jitter : Nat → ℚ) (e : String),
      (∀ i, conn i = .error e) → (∀ k, 1 ≤ jitter k) →
      (connectProducerRun conn jitter).result = .error e ∧
      (connectProducerRun conn jitter).attempts = 6 ∧
      1000 + 2000 + 4000 + 8000 + 16000 ≤ (connectProducerRun conn jitter).totalWait ∧
      startServer conn jitter = .error e) ∧
    (∀ (conn : Nat → Except String Unit) (jitter : Nat → ℚ) (s : ServerStartup),
      startServer conn jitter = .ok s → ∃ i, i ≤ 5 ∧ succeeded (conn i) = true) := by
  refine ⟨rfl, ?_, ?_, ?_⟩
  · intro conn jitter
    exact retryCall_attempts_le conn connectProducerPolicy jitter
  · intro conn jitter e h hj
    have hfail : ∀ i, succeeded (conn i) = false := by
      intro i
      rw [h i]
      rfl
    have hmain : connectProducerRun conn jitter =
        ⟨conn connectProducerPolicy.retries, connectProducerPolicy.retries + 1,
          backoffSum connectProducerPolicy jitter 0 connectProducerPolicy.retries⟩ :=
      retryCall_allFail conn connectProducerPolicy jitter hfail
    refine ⟨by rw [hmain]; exact h 5, by rw [hmain]; rfl, ?_, ?_⟩
    · rw [hmain]
      show (1000 : ℚ) + 2000 + 4000 + 8000 + 16000 ≤
        backoffSum connectProducerPolicy jitter 0 connectProducerPolicy.retries
      calc (1000 : ℚ) + 2000 + 4000 + 8000 + 16000 ≤ 31000 := by norm_num
        _ = backoffSum connectProducerPolicy unitJitter 0 connectProducerPolicy.retries :=
          unit_backoffSum_connect.symm
        _ ≤ backoffSum connectProducerPolicy jitter 0 connectProducerPolicy.retries :=
          le_backoffSum connectProducerPolicy jitter hj connectProducerPolicy.retries 0
    · simp only [startServer, hmain]
      rw [h connectProducerPolicy.retries]
  · intro conn jitter s hok
    unfold startServer at hok
    split at hok
    · exact absurd hok (by simp)
    · rename_i u heq
      obtain ⟨i, hi, hop⟩ := retryCall_ok_inv conn connectProducerPolicy jitter u heq
      exact ⟨i, hi, by rw [hop]; rfl⟩


/-- Witness for C7 at an always-failing and an always-succeeding broker. -/
theorem connectProducer_startup_spec_witness :
    (connectProducerRun connDown unitJitter).result = .error "broker unreachable" ∧
    (connectProducerRun connDown unitJitter).attempts = 6 ∧
    1000 + 2000 + 4000 + 8000 + 16000 ≤ (connectProducerRun connDown unitJitter).totalWait ∧
    startServer connDown unitJitter = .error "broker unreachable" ∧
    (∃ i, i ≤ 5 ∧ succeeded (connUp i) = true) := by
  have h3 := connectProducer_startup_spec.2.2.1 connDown unitJitter "broker unreachable"
    (fun _ => rfl) (fun _ => le_refl 1)
  have h4 := connectProducer_startup_spec.2.2.2 connUp unitJitter ⟨true⟩ rfl
  exact ⟨h3.1, h3.2.1, h3.2.2.1, h3.2.2.2, h4⟩


/-- C8: startConsumer joins the fixed trade-group consumer group, subscribes
to the trade-events topic from the earliest retained offset, and wraps
connect-and-subscribe in the same retry policy as connectProducer
(5 retries, 1s base, factor 2). -/
theorem startConsumer_config_spec :
    consumerGroupId = "trade-group" ∧
    consumerSubscribeArgs.topic = "trade-events" ∧
    consumerSubscribeArgs.fromBeginning = true ∧
    consumerConnectPolicy = connectProducerPolicy ∧
    consumerConnectPolicy.retries = 5 ∧
    consumerConnectPolicy.minTimeout = 1000 ∧
    consumerConnectPolicy.factor = 2 ∧
    ∀ (connSub : Nat → Except String Unit) (jitter : Nat → ℚ),
      startConsumerConnect connSub jitter = retryCall connSub connectProducerPolicy jitter :=
  ⟨rfl, rfl, rfl, rfl, rfl, rfl, rfl, fun _ _ => rfl⟩


/-- C4 counterexample: the claim bounds the apply step at 3 attempts, but
with async-retry options retries 3 the dispatch runs one initial attempt plus
up to 3 retries; on an operation failing its first three attempts a fourth
attempt runs and the handler succeeds instead of escalating. -/
theorem eachMessage_makes_fourth_attempt :
    (eachMessageApply applyFlaky3 unitJitter).attempts = 4 ∧
    ¬ (eachMessageApply applyFlaky3 unitJitter).attempts ≤ 3 ∧
    (eachMessageApply applyFlaky3 unitJitter).result = .ok () := by
  have ha : (eachMessageApply applyFlaky3 unitJitter).attempts = 4 := rfl
  exact ⟨ha, by omega, rfl⟩


/-- C4 amended: the apply step makes up to 4 attempts per envelope (one
initial attempt plus 3 retries) with randomized exponential backoff on a
500ms base and factor 2 (so failing every attempt waits at least
500+1000+2000 ms); if every attempt throws, the final error is rethrown out
of the message handler and the offset does not advance; the offset advances
exactly when the dispatch-and-retry sequence returns without error. -/
theorem eachMessage_retry_amended :
    (∀ (applyOp : Nat → Except String Unit) (jitter : Nat → ℚ),
      (eachMessageApply applyOp jitter).attempts ≤ 4) ∧
    (∀ (applyOp : Nat → Except String Unit) (jitter : Nat → ℚ) (e : String),
      (∀ i, applyOp i = .error e) → (∀ k, 1 ≤ jitter k) →
      eachMessageHandler applyOp jitter = .error e ∧
      (eachMessageApply applyOp jitter).attempts = 4 ∧
      500 + 1000 + 2000 ≤ (eachMessageApply applyOp jitter).totalWait ∧
      offsetAdvances applyOp jitter = false) ∧
    (∀ (applyOp : Nat → Except String Unit) (jitter : Nat → ℚ),
      offsetAdvances applyOp jitter = true ↔
        ∃ u, eachMessageHandler applyOp jitter = .ok u) := by
  refine ⟨?_, ?_, ?_⟩
  · intro applyOp jitter
    exact retryCall_attempts_le applyOp consumerApplyPolicy jitter
  · intro applyOp jitter e h hj
    have hfail : ∀ i, succeeded (applyOp i) = false := by
      intro i
      rw [h i]
      rfl
    have hmain : eachMessageApply applyOp jitter =
        ⟨applyOp consumerApplyPolicy.retries, consumerApplyPolicy.retries + 1,
          backoffSum consumerApplyPolicy jitter 0 consumerApplyPolicy.retries⟩ :=
      retryCall_allFail applyOp consumerApplyPolicy jitter hfail
    refine ⟨?_, by rw [hmain]; rfl, ?_, ?_⟩
    · show (eachMessageApply applyOp jitter).result = .error e
      rw [hmain]
      exact h 3
    · rw [hmain]
      show (500 : ℚ) + 1000 + 2000 ≤
        backoffSum consumerApplyPolicy jitter 0 consumerApplyPolicy.retries
      calc (500 : ℚ) + 1000 + 2000 ≤ 3500 := by norm_num
        _ = backoffSum consumerApplyPolicy unitJitter 0 consumerApplyPolicy.retries :=
          unit_backoffSum_apply.symm
        _ ≤ backoffSum consumerApplyPolicy jitter 0 consumerApplyPolicy.retries :=
          le_backoffSum consumerApplyPolicy jitter hj consumerApplyPolicy.retries 0
    · show succeeded (eachMessageApply applyOp jitter).result = false
      rw [hmain]
      have := hfail 3
      simpa using this
  · intro applyOp jitter
    unfold offsetAdvances eachMessageHandler
    cases h : (eachMessageApply applyOp jitter).result with
    | ok u => simp [succeeded, h]
    | error e => simp [succeeded, h]


/-- Witness for the amended C4 at an always-failing store application. -/
theorem eachMessage_retry_amended_witness :
    eachMessageHandler applyDown unitJitter = .error "db down" ∧
    (eachMessageApply applyDown unitJitter).attempts = 4 ∧
    500 + 1000 + 2000 ≤ (eachMessageApply applyDown unitJitter).totalWait ∧
    offsetAdvances applyDown unitJitter = false ∧
    (eachMessageApply applyDown unitJitter).attempts ≤ 4 := by
  have h := eachMessage_retry_amended.2.1 applyDown unitJitter "db down" (fun _ => rfl)
    (fun _ => le_refl 1)
  exact ⟨h.1, h.2.1, h.2.2.1, h.2.2.2, eachMessage_retry_amended.1 applyDown unitJitter⟩


theorem jsOrZero_eq_getD (f : Option ℚ) : jsOrZero f = f.getD 0 := by
  cases f with
  | none => rfl
  | some q =>
    by_cases hq : q = 0 <;> simp [jsOrZero, hq]


/-- C1 (code bug): re-applying a TradeClosed envelope for an id whose live
row no longer exists raises record-not-found from the initial delete, under
the db.service retry wrapper as well, instead of tolerating the absent row;
the first application from a state holding the live trade succeeds. -/
theorem closeLiveTrade_second_application_raises :
    closeLiveTrade "t1" 160 (some 5) dbAfterFirstClose = .error .recordNotFound ∧
    (∀ jitter : Nat → ℚ,
      (closeLiveTradeRetried "t1" 160 (some 5) dbAfterFirstClose jitter).result =
        .error .recordNotFound) ∧
    closeLiveTrade "t1" 160 (some 5) dbWithT1 = .ok (closedT1, ⟨[], [closedT1]⟩) :=
  ⟨rfl, fun _ => rfl, rfl⟩


/-- C6: closing a live trade removes its live row and creates a closed row
with the same id and realizedPL = (exitPrice - entryPrice) * qty - fees,
with fees taken as 0 when absent. -/
theorem closeLiveTrade_spec (id : String) (p1 : ℚ) (fees : Option ℚ) (st : Db)
    (lt : LiveTradeRec)
    (hfind : st.live.find? (fun t => t.id == id) = some lt)
    (hnc : st.closed.any (fun c => c.id == id) = false) :
    closeLiveTrade id p1 fees st =
      .ok (closedOfLive id p1 fees lt,
        ⟨st.live.filter (fun u => u.id != id), st.closed ++ [closedOfLive id p1 fees lt]⟩) ∧
    (closedOfLive id p1 fees lt).id = id ∧
    (closedOfLive id p1 fees lt).realizedPL =
      (p1 - lt.entryPrice) * (lt.qty : ℚ) - fees.getD 0 ∧
    (st.live.filter (fun u => u.id != id)).find? (fun t => t.id == id) = none := by
  have hdel : prismaLiveTradeDelete id st =
      .ok (lt, ⟨st.live.filter (fun u => u.id != id), st.closed⟩) := by
    unfold prismaLiveTradeDelete
    rw [hfind]
  have hcre : prismaClosedTradeCreate (closedOfLive id p1 fees lt)
      ⟨st.live.filter (fun u => u.id != id), st.closed⟩ =
      .ok ⟨st.live.filter (fun u => u.id != id), st.closed ++ [closedOfLive id p1 fees lt]⟩ := by
    unfold prismaClosedTradeCreate
    simp only [closedOfLive]
    rw [hnc]
    rfl
  refine ⟨?_, rfl, ?_, ?_⟩
  · unfold closeLiveTrade
    rw [hdel]
    simp only [hcre]
  · show (p1 - lt.entryPrice) * (lt.qty : ℚ) - jsOrZero fees =
      (p1 - lt.entryPrice) * (lt.qty : ℚ) - fees.getD 0
    rw [jsOrZero_eq_getD]
  · rw [List.find?_eq_none]
    intro x hx
    have h2 := (List.mem_filter.mp hx).2
    simp only [bne_iff_ne, ne_eq] at h2
    simp [h2]


/-- Witness for C6 at the specification scenario: entry 150, qty 10, exit
160, fees 5, realized profit-and-loss 95. -/
theorem closeLiveTrade_spec_witness :
    dbWithT1.live.find? (fun t => t.id == "t1") = some t1Live ∧
    dbWithT1.closed.any (fun c => c.id == "t1") = false ∧
    closeLiveTrade "t1" 160 (some 5) dbWithT1 = .ok (closedT1, ⟨[], [closedT1]⟩) ∧
    closedT1.realizedPL = 95 := by
  have h := closeLiveTrade_spec "t1" 160 (some 5) dbWithT1 t1Live rfl rfl
  exact ⟨rfl, rfl, h.1, by norm_num [closedT1, closedOfLive, jsOrZero, t1Live]⟩


/-- C10: updating a live trade by id leaves id, accountId and entryDate
unchanged; each of symbol, entryPrice, tradeType, size, qty and slPercentage
is taken from the patch when present and kept otherwise, so only those six
fields can change. -/
theorem updateLiveTrade_frame (id : String) (p : LiveTradePatch) (st : Db)
    (t : LiveTradeRec)
    (hfind : st.live.find? (fun u => u.id == id) = some t) :
    updateLiveTrade id p st =
      .ok (applyPatch t p,
        ⟨st.live.map (fun u => if u.id == id then applyPatch t p else u), st.closed⟩) ∧
    (applyPatch t p).id = t.id ∧
    (applyPatch t p).accountId = t.accountId ∧
    (applyPatch t p).entryDate = t.entryDate ∧
    (applyPatch t p).symbol = p.symbol.getD t.symbol ∧
    (applyPatch t p).entryPrice = p.entryPrice.getD t.entryPrice ∧
    (applyPatch t p).tradeType = p.tradeType.getD t.tradeType ∧
    (applyPatch t p).size = p.size.getD t.size ∧
    (applyPatch t p).qty = p.qty.getD t.qty ∧
    (applyPatch t p).slPercentage = p.slPercentage.getD t.slPercentage := by
  refine ⟨?_, rfl, rfl, rfl, rfl, rfl, rfl, rfl, rfl, rfl⟩
  unfold updateLiveTrade
  rw [hfind]


/-- Witness for C10: the patch attempts to set id, accountId and entryDate,
yet the stored row keeps them while symbol, entryPrice and qty change. -/
theorem updateLiveTrade_frame_witness :
    dbWithT1.live.find? (fun u => u.id == "t1") = some t1Live ∧
    updateLiveTrade "t1" patchU dbWithT1 =
      .ok (applyPatch t1Live patchU, ⟨[applyPatch t1Live patchU], []⟩) ∧
    (applyPatch t1Live patchU).id = "t1" ∧
    (applyPatch t1Live patchU).accountId = "a1" ∧
    (applyPatch t1Live patchU).entryDate = "2025-04-09T00:00:00.000Z" ∧
    (applyPatch t1Live patchU).symbol = "MSFT" ∧
    (applyPatch t1Live patchU).qty = 12 := by
  have h := updateLiveTrade_frame "t1" patchU dbWithT1 t1Live rfl
  exact ⟨rfl, h.1, h.2.1, h.2.2.1, h.2.2.2.1, rfl, rfl⟩


theorem decodePrim_encodePrim (p : JsPrim) (h : isDate p = false) :
    decodePrim (encodePrim p) = p := by
  cases p <;> simp_all [isDate, encodePrim, decodePrim]


/-- C2 counterexample: decoding the encoded form of an envelope whose trade
carries a Date-valued entryDate returns the ISO string, not the Date, so the
round-trip law fails on exactly the entryDate case the claim includes. -/
theorem decode_encode_not_id_on_date :
    decodeEnvelope (encodeEnvelope tradeCreatedWithDate) ≠ tradeCreatedWithDate ∧
    decodeEnvelope (encodeEnvelope tradeCreatedWithDate) = tradeCreatedPlain := by
  constructor
  · decide
  · decide


/-- C2 amended: the round-trip law decode (encode e) = e holds for every
envelope whose trade payload carries only JSON-primitive values; for a trade
carrying a Date-valued entryDate the decoded envelope holds the ISO-8601
string instead, so the law fails there. -/
theorem decode_encode_roundtrip (e : TransportEnvelope)
    (h : e.trade.all (fun kv => !(isDate kv.2)) = true) :
    decodeEnvelope (encodeEnvelope e) = e := by
  obtain ⟨ev, tr⟩ := e
  unfold encodeEnvelope decodeEnvelope
  simp only [List.map_map]
  congr 1
  induction tr with
  | nil => rfl
  | cons kv rest ih =>
    simp only [List.all_cons, Bool.and_eq_true] at h
    obtain ⟨h1, h2⟩ := h
    simp only [List.map_cons, Function.comp]
    rw [decodePrim_encodePrim kv.2 (by simpa using h1), ih h2]


/-- Witness for the amended C2 at the date-free scenario envelope. -/
theorem decode_encode_roundtrip_witness :
    tradeCreatedPlain.trade.all (fun kv => !(isDate kv.2)) = true ∧
    decodeEnvelope (encodeEnvelope tradeCreatedPlain) = tradeCreatedPlain :=
  ⟨by decide, decode_encode_roundtrip tradeCreatedPlain (by decide)⟩


/-- C3 counterexample: an empty payload (missing event tag), a payload with
an unrecognized tag, and a payload with a trade but no tag are all silently
processed as successes with the store untouched — no malformed-envelope
rejection exists. -/
theorem dispatch_malformed_silently_succeeds :
    dispatchTradeEvent "uuid-1" "2025-01-01T00:00:00.000Z" [] dbWithT1 = (none, dbWithT1) ∧
    dispatchTradeEvent "uuid-1" "2025-01-01T00:00:00.000Z"
      [("event", .prim (.str "TradeArchived"))] dbWithT1 = (none, dbWithT1) ∧
    dispatchTradeEvent "uuid-1" "2025-01-01T00:00:00.000Z"
      [("trade", .obj [("id", .str "t1")])] dbWithT1 = (none, dbWithT1) :=
  ⟨rfl, rfl, rfl⟩


/-- C3 amended: the consumer performs no decode-time validation and has no
malformed-envelope error.  Every payload whose event tag is missing,
non-string, or not one of the four recognized tags is silently ignored (the
dispatch is a no-op that completes successfully, leaving the store
untouched).  A missing trade.id yields no malformed-envelope rejection
either: a TradeCreated payload without an id is silently applied, the store
assigning the id (and a missing entryDate) from its schema defaults, while
for the other tags Prisma rejects the undefined id argument. -/
theorem dispatch_no_validation_amended :
    (∀ (genId nowDate : String) (data : List (String × JVal)) (st : Db),
      isKnownEvent data = false →
      dispatchTradeEvent genId nowDate data st = (none, st)) ∧
    dispatchTradeEvent "uuid-1" "2025-01-01T00:00:00.000Z" tradeCreatedNoId ⟨[], []⟩ =
      (none, ⟨[createdDefaultRow], []⟩) ∧
    dispatchTradeEvent "uuid-1" "2025-01-01T00:00:00.000Z"
      [("event", .prim (.str "TradeDeleted")), ("trade", .obj [])] dbWithT1 =
      (some .validationError, dbWithT1) := by
  refine ⟨?_, rfl, rfl⟩
  intro genId nowDate data st h
  unfold dispatchTradeEvent
  split
  all_goals first
    | rfl
    | simp_all [isKnownEvent, eventTag, tradeEventTags]


/-- Witness for the amended C3 at a payload with an unrecognized tag. -/
theorem dispatch_no_validation_amended_witness :
    isKnownEvent [("event", JVal.prim (.str "TradeUnknown"))] = false ∧
    dispatchTradeEvent "uuid-1" "2025-01-01T00:00:00.000Z"
      [("event", JVal.prim (.str "TradeUnknown"))] dbWithT1 = (none, dbWithT1) :=
  ⟨rfl, dispatch_no_validation_amended.1 _ _ _ _ rfl⟩


/-- C9: the create-trade handler validates the body against the live-trade
schema (rejecting with 400 and publishing nothing on failure), publishes a
TradeCreated envelope whose trade id is the locally generated one, and maps
a publish failure to a 400 response — never any 2xx status. -/
theorem createLiveTrade_handler_spec :
    (∀ (body : CreateTradeBody) (newId : String) (now : Int)
        (publish : TradeEventMsg → Except String Unit),
      liveTradeSchemaParse body = none →
      createLiveTradeHandler body newId now publish = ⟨400, none⟩) ∧
    (∀ (body : CreateTradeBody) (d : LiveTradeInput) (newId : String) (now : Int)
        (publish : TradeEventMsg → Except String Unit),
      liveTradeSchemaParse body = some d →
      ∃ env : TradeEventMsg,
        (createLiveTradeHandler body newId now publish).published = some env ∧
        env.event = "TradeCreated" ∧
        env.trade.id = newId ∧
        (∀ e, publish env = .error e →
          (createLiveTradeHandler body newId now publish).status = 400 ∧
          is2xx (createLiveTradeHandler body newId now publish).status = false) ∧
        (publish env = .ok () →
          (createLiveTradeHandler body newId now publish).status = 201)) := by
  constructor
  · intro body newId now publish hp
    unfold createLiveTradeHandler
    rw [hp]
  · intro body d newId now publish hp
    refine ⟨handlerEnvelope d newId now, ?_, rfl, rfl, ?_, ?_⟩
    · unfold createLiveTradeHandler
      simp only [hp]
      cases hpub : publish (handlerEnvelope d newId now) <;> rfl
    · intro e hpub
      unfold createLiveTradeHandler
      simp only [hp, hpub]
      decide
    · intro hpub
      unfold createLiveTradeHandler
      simp only [hp, hpub]


/-- Witness for C9: the invalid body yields 400 with nothing published; the
valid body under a failing broker publishes the envelope carrying the
locally generated id and yields 400, not a 2xx. -/
theorem createLiveTrade_handler_spec_witness :
    liveTradeSchemaParse badBody = none ∧
    createLiveTradeHandler badBody "id1" 0 publishDown = ⟨400, none⟩ ∧
    liveTradeSchemaParse goodBody = some goodInput ∧
    ((createLiveTradeHandler goodBody "id1" 0 publishDown).status = 400 ∧
      is2xx (createLiveTradeHandler goodBody "id1" 0 publishDown).status = false) := by
  have h1 := createLiveTrade_handler_spec.1 badBody "id1" 0 publishDown (by decide)
  have h2 := createLiveTrade_handler_spec.2 goodBody goodInput "id1" 0 publishDown (by decide)
  obtain ⟨env, hpub, hev, hid, herr, hok⟩ := h2
  exact ⟨by decide, h1, by decide, herr "publish failed" rfl⟩


end TradeTracker

